import Mathlib

/-!
# go-redmine, `issue.go`: issue operations of the Redmine REST client

A shallow embedding of `issue.go`.

* Go's `error` interface value is `Option GoError` (`none` is `nil`).
* A pointer `*T` is `Option T` (`none` is `nil`); a slice that may be `nil` is
  `Option (List T)`.
* A function returning `(v, err)` returns a pair.
* `int` is `Int`.
* The standard library (`net/http`, `encoding/json`) and the members of `Client`
  are not part of `issue.go`; they are parameters of the model (`Env`, `Client`).
-/

namespace Redmine

/-! ## Go values used by `issue.go` -/

/-- Non-nil Go `error` values: the ones `issue.go` creates itself with `errors.New`, and the
ones handed back by the standard library (transport, request construction, JSON). -/
inductive GoError where
  | errorsNew (msg : String)
  | library (pkg : String) (descr : String)
  deriving DecidableEq, Repr

/-- Go `errors.New`. -/
def errors.New (msg : String) : GoError := GoError.errorsNew msg

/-- Go `strings.Join`: the elements separated by `sep`. -/
def strings.Join : List String → String → String
  | [], _ => ""
  | [a], _ => a
  | a :: b :: rest, sep => a ++ sep ++ strings.Join (b :: rest) sep

/-- Go `strconv.Itoa`: decimal rendering, with a leading minus sign for negative numbers. -/
def strconv.Itoa (i : Int) : String :=
  if i < 0 then "-" ++ Nat.repr i.natAbs else Nat.repr i.natAbs

/-! ## Data model -/

/-- Modelled from the spec: the `IdName` type, declared outside `issue.go`; a numeric
reference with its denormalized name. -/
structure IdName where
  Id : Int := 0
  Name : String := ""
  deriving DecidableEq, Repr

/-- Modelled from the spec: the `Id` type, declared outside `issue.go`; a numeric reference. -/
structure Id where
  Id : Int := 0
  deriving DecidableEq, Repr

/-- Modelled from the spec: the `Upload` type, declared outside `issue.go`; one file upload of
an issue. Only carried through by the operations of `issue.go`. -/
structure Upload where
  Token : String := ""
  deriving DecidableEq, Repr

/-- A Go `interface{}` as `encoding/json` fills it. -/
inductive Interface where
  | null
  | bool (b : Bool)
  | float64 (bits : Nat)
  | string (s : String)
  | array (xs : List Interface)
  | object (kvs : List (String × Interface))

/-- The `CustomField` struct. -/
structure CustomField where
  Id : Int := 0
  Name : String := ""
  Multiple : Bool := false
  Value : Interface := Interface.null

/-- The `Issue` struct. `DoneRatio` (a `float32`) is carried as its bit pattern. -/
structure Issue where
  Id : Int := 0
  Subject : String := ""
  Description : String := ""
  ProjectId : Int := 0
  Project : Option IdName := none
  TrackerId : Int := 0
  Tracker : Option IdName := none
  ParentId : Int := 0
  Parent : Option Redmine.Id := none
  StatusId : Int := 0
  Status : Option IdName := none
  PriorityId : Int := 0
  Priority : Option IdName := none
  Author : Option IdName := none
  FixedVersion : Option IdName := none
  AssignedTo : Option IdName := none
  Category : Option IdName := none
  CategoryId : Int := 0
  Notes : String := ""
  StatusDate : String := ""
  CreatedOn : String := ""
  UpdatedOn : String := ""
  DueDate : String := ""
  ClosedOn : String := ""
  CustomFields : Option (List (Option CustomField)) := none
  Uploads : Option (List (Option Upload)) := none
  DoneRatio : Nat := 0

/-- The `issueRequest` struct. -/
structure issueRequest where
  Issue : Redmine.Issue := {}

/-- The `issueResult` struct. -/
structure issueResult where
  Issue : Redmine.Issue := {}

/-- The `issuesResult` struct. -/
structure issuesResult where
  Issues : Option (List Redmine.Issue) := none

/-- Modelled from the spec: the `errorsResult` type, declared outside `issue.go`; the envelope
of a failure response, a list of error message strings under the key `errors`. -/
structure errorsResult where
  Errors : List String := []
  deriving DecidableEq, Repr

/-- A Go `map[string]string` that is not `nil`: its entries, with pairwise different keys. -/
structure StringMap where
  entries : List (String × String)
  nodupKeys : (entries.map Prod.fst).Nodup

/-- The empty, non-nil map `map[string]string{}`. -/
def StringMap.empty : StringMap := ⟨[], List.nodup_nil⟩

/-- The order in which a `for key, value := range m` loop visits the entries of a map. Go
leaves it unspecified; every entry is visited once. -/
structure RangeOrder where
  visit : List (String × String) → List (String × String)
  perm : ∀ m, (visit m).Perm m

/-- The range order that visits the entries as listed. -/
def RangeOrder.listed : RangeOrder := ⟨fun m => m, fun m => List.Perm.refl m⟩

/-- The range order that visits the entries in reverse. -/
def RangeOrder.reversed : RangeOrder := ⟨fun m => m.reverse, fun m => List.reverse_perm m⟩

/-- The `IssueFilter` struct. -/
structure IssueFilter where
  ProjectId : String := ""
  SubprojectId : String := ""
  TrackerId : String := ""
  StatusId : String := ""
  AssignedToId : String := ""
  UpdatedOn : String := ""
  ExtraFilters : Option StringMap := none

/-! ## `GetTitle` and `getIssueFilterClause` -/

/-- `(issue *Issue) GetTitle()`. Dereferencing a nil `Tracker` panics: `none`. -/
def Issue.GetTitle (issue : Issue) : Option String :=
  match issue.Tracker with
  | none => none
  | some tracker => some (tracker.Name ++ " #" ++ strconv.Itoa issue.Id ++ ": " ++ issue.Subject)

/-- `getIssueFilterClause(filter *IssueFilter)`. `fmt.Sprintf` with `%v` or `%s` on a string
inserts the string as it is. -/
def getIssueFilterClause (ρ : RangeOrder) (filter : Option IssueFilter) : String :=
  match filter with
  | none => ""
  | some filter =>
    let clause := ""
    let clause := if filter.ProjectId ≠ "" then clause ++ ("&project_id=" ++ filter.ProjectId) else clause
    let clause := if filter.SubprojectId ≠ "" then clause ++ ("&subproject_id=" ++ filter.SubprojectId) else clause
    let clause := if filter.TrackerId ≠ "" then clause ++ ("&tracker_id=" ++ filter.TrackerId) else clause
    let clause := if filter.StatusId ≠ "" then clause ++ ("&status_id=" ++ filter.StatusId) else clause
    let clause := if filter.AssignedToId ≠ "" then clause ++ ("&assigned_to_id=" ++ filter.AssignedToId) else clause
    let clause := if filter.UpdatedOn ≠ "" then clause ++ ("&updated_on=" ++ filter.UpdatedOn) else clause
    match filter.ExtraFilters with
    | some m =>
      let extraFilter : List String :=
        (ρ.visit m.entries).foldl (fun acc kv => acc ++ [kv.1 ++ "=" ++ kv.2]) []
      clause ++ "&" ++ strings.Join extraFilter "&"
    | none => clause

/-! ## HTTP and JSON as seen from `issue.go` -/

/-- The part of `http.Response` that `issue.go` reads: the status code and the body. -/
structure Response where
  StatusCode : Int
  Body : String

/-- The part of `http.Request` that `issue.go` sets. -/
structure Request where
  Method : String
  URL : String
  Body : Option String
  Header : List (String × String) := []

/-- Go `validHeaderFieldByte`: the characters of an HTTP token. -/
def validHeaderFieldByte (c : Char) : Bool :=
  c.isAlphanum || "!#$%&*+-.^_|~".toList.contains c || c = Char.ofNat 39 || c = Char.ofNat 96

/-- The loop of Go `canonicalMIMEHeaderKey`: the first letter and every letter after a hyphen in
upper case, the other letters in lower case. -/
def canonicalLetters : Bool → List Char → List Char
  | _, [] => []
  | upper, c :: cs =>
    let c := if upper && c.isLower then c.toUpper
      else if !upper && c.isUpper then c.toLower else c
    c :: canonicalLetters (c = '-') cs

/-- Go `textproto.CanonicalMIMEHeaderKey`: a key with a character outside the HTTP token
characters is returned as it is. -/
def CanonicalMIMEHeaderKey (key : String) : String :=
  if key.toList.all validHeaderFieldByte then String.mk (canonicalLetters true key.toList)
  else key

/-- Go `req.Header.Set(key, value)`: the value replaces what the canonical key had. -/
def Request.HeaderSet (req : Request) (key value : String) : Request :=
  { req with
    Header := (CanonicalMIMEHeaderKey key, value) ::
      req.Header.filter (fun kv => kv.1 ≠ CanonicalMIMEHeaderKey key) }

/-- Modelled from the spec: the `Client` type and its `getPaginationClause` method, declared
outside `issue.go`: endpoint URL, API key, the pagination clause (a query-string fragment set
by configuration), and the HTTP execution `Get` and `Do` of the embedded `*http.Client`. -/
structure Client where
  endpoint : String
  apikey : String
  getPaginationClause : String
  Get : String → Except GoError Response
  Do : Request → Except GoError Response

/-- The standard library functions `issue.go` calls: `http.Get`, `http.NewRequest`,
`json.Marshal` on an `issueRequest`, and `json.NewDecoder(body).Decode(&v)` for the three
types `v` has in `issue.go`. A decoder gives the decoded value or the error of `Decode`. -/
structure Env where
  httpGet : String → Except GoError Response
  NewRequest : String → String → Option String → Except GoError Request
  Marshal : issueRequest → Except GoError String
  DecodeErrorsResult : String → Except GoError errorsResult
  DecodeIssueRequest : String → Except GoError issueRequest
  DecodeIssuesResult : String → Except GoError issuesResult

/-! ## The operations -/

/-- URL of `IssuesOf`. -/
def Client.IssuesOfURL (c : Client) (projectId : Int) : String :=
  c.endpoint ++ "/issues.json?project_id=" ++ strconv.Itoa projectId ++ "&key=" ++ c.apikey
    ++ c.getPaginationClause

/-- `(c *Client) IssuesOf(projectId int)`. -/
def Client.IssuesOf (c : Client) (env : Env) (projectId : Int) :
    Option (List Redmine.Issue) × Option GoError :=
  match c.Get (c.IssuesOfURL projectId) with
  | .error err => (none, some err)
  | .ok res =>
    let rerr : issuesResult × Option GoError :=
      if res.StatusCode ≠ 200 then
        match env.DecodeErrorsResult res.Body with
        | .error err => ({}, some err)
        | .ok er => ({}, some (errors.New (strings.Join er.Errors "\n")))
      else
        match env.DecodeIssuesResult res.Body with
        | .error err => ({}, some err)
        | .ok r => (r, none)
    match rerr.2 with
    | some err => (none, some err)
    | none => (rerr.1.Issues, none)

/-- URL of `Issue`. -/
def Client.IssueURL (c : Client) (id : Int) : String :=
  c.endpoint ++ "/issues/" ++ strconv.Itoa id ++ ".json?key=" ++ c.apikey

/-- `(c *Client) Issue(id int)`. -/
def Client.Issue (c : Client) (env : Env) (id : Int) : Option Redmine.Issue × Option GoError :=
  match c.Get (c.IssueURL id) with
  | .error err => (none, some err)
  | .ok res =>
    if res.StatusCode = 404 then (none, some (errors.New "Not Found"))
    else
      let rerr : issueRequest × Option GoError :=
        if res.StatusCode ≠ 200 then
          match env.DecodeErrorsResult res.Body with
          | .error err => ({}, some err)
          | .ok er => ({}, some (errors.New (strings.Join er.Errors "\n")))
        else
          match env.DecodeIssueRequest res.Body with
          | .error err => ({}, some err)
          | .ok r => (r, none)
      match rerr.2 with
      | some err => (none, some err)
      | none => (some rerr.1.Issue, none)

/-- URL of `IssuesByQuery`. -/
def Client.IssuesByQueryURL (c : Client) (queryId : Int) : String :=
  c.endpoint ++ "/issues.json?query_id=" ++ strconv.Itoa queryId ++ "&key=" ++ c.apikey
    ++ c.getPaginationClause

/-- `(c *Client) IssuesByQuery(queryId int)`; it calls `http.Get`, not `c.Get`. -/
def Client.IssuesByQuery (c : Client) (env : Env) (queryId : Int) :
    Option (List Redmine.Issue) × Option GoError :=
  match env.httpGet (c.IssuesByQueryURL queryId) with
  | .error err => (none, some err)
  | .ok res =>
    let rerr : issuesResult × Option GoError :=
      if res.StatusCode ≠ 200 then
        match env.DecodeErrorsResult res.Body with
        | .error err => ({}, some err)
        | .ok er => ({}, some (errors.New (strings.Join er.Errors "\n")))
      else
        match env.DecodeIssuesResult res.Body with
        | .error err => ({}, some err)
        | .ok r => (r, none)
    match rerr.2 with
    | some err => (none, some err)
    | none => (rerr.1.Issues, none)

/-- URL of `IssuesByFilter`: `fmt.Sprintf("%s/issues.json?key=%s%s%s", ...)`. -/
def Client.IssuesByFilterURL (c : Client) (ρ : RangeOrder) (f : Option IssueFilter) : String :=
  c.endpoint ++ "/issues.json?key=" ++ c.apikey ++ c.getPaginationClause
    ++ getIssueFilterClause ρ f

/-- `(c *Client) IssuesByFilter(f *IssueFilter)`. -/
def Client.IssuesByFilter (c : Client) (env : Env) (ρ : RangeOrder) (f : Option IssueFilter) :
    Option (List Redmine.Issue) × Option GoError :=
  match env.NewRequest "GET" (c.IssuesByFilterURL ρ f) none with
  | .error err => (none, some err)
  | .ok req =>
    let req := req.HeaderSet "Content-Type" "application/json"
    let req := req.HeaderSet "X-Redmine-API-Key" c.apikey
    match c.Do req with
    | .error err => (none, some err)
    | .ok res =>
      let rerr : issuesResult × Option GoError :=
        if res.StatusCode ≠ 200 then
          match env.DecodeErrorsResult res.Body with
          | .error err => ({}, some err)
          | .ok er => ({}, some (errors.New (strings.Join er.Errors "\n")))
        else
          match env.DecodeIssuesResult res.Body with
          | .error err => ({}, some err)
          | .ok r => (r, none)
      match rerr.2 with
      | some err => (none, some err)
      | none => (rerr.1.Issues, none)

/-- URL of `Issues`. -/
def Client.IssuesURL (c : Client) : String :=
  c.endpoint ++ "/issues.json?key=" ++ c.apikey ++ c.getPaginationClause

/-- `(c *Client) Issues()`. -/
def Client.Issues (c : Client) (env : Env) : Option (List Redmine.Issue) × Option GoError :=
  match c.Get c.IssuesURL with
  | .error err => (none, some err)
  | .ok res =>
    let rerr : issuesResult × Option GoError :=
      if res.StatusCode ≠ 200 then
        match env.DecodeErrorsResult res.Body with
        | .error err => ({}, some err)
        | .ok er => ({}, some (errors.New (strings.Join er.Errors "\n")))
      else
        match env.DecodeIssuesResult res.Body with
        | .error err => ({}, some err)
        | .ok r => (r, none)
    match rerr.2 with
    | some err => (none, some err)
    | none => (rerr.1.Issues, none)

/-- URL of `CreateIssue`. -/
def Client.CreateIssueURL (c : Client) : String :=
  c.endpoint ++ "/issues.json?key=" ++ c.apikey

/-- `(c *Client) CreateIssue(issue Issue)`. -/
def Client.CreateIssue (c : Client) (env : Env) (issue : Redmine.Issue) :
    Option Redmine.Issue × Option GoError :=
  let ir : issueRequest := { Issue := issue }
  match env.Marshal ir with
  | .error err => (none, some err)
  | .ok s =>
    match env.NewRequest "POST" c.CreateIssueURL (some s) with
    | .error err => (none, some err)
    | .ok req =>
      let req := req.HeaderSet "Content-Type" "application/json"
      match c.Do req with
      | .error err => (none, some err)
      | .ok res =>
        let rerr : issueRequest × Option GoError :=
          if res.StatusCode ≠ 201 then
            match env.DecodeErrorsResult res.Body with
            | .error err => ({}, some err)
            | .ok er => ({}, some (errors.New (strings.Join er.Errors "\n")))
          else
            match env.DecodeIssueRequest res.Body with
            | .error err => ({}, some err)
            | .ok r => (r, none)
        match rerr.2 with
        | some err => (none, some err)
        | none => (some rerr.1.Issue, none)

/-- URL of `UpdateIssue`. -/
def Client.UpdateIssueURL (c : Client) (issue : Redmine.Issue) : String :=
  c.endpoint ++ "/issues/" ++ strconv.Itoa issue.Id ++ ".json?key=" ++ c.apikey

/-- `(c *Client) UpdateIssue(issue Issue)`. -/
def Client.UpdateIssue (c : Client) (env : Env) (issue : Redmine.Issue) : Option GoError :=
  let ir : issueRequest := { Issue := issue }
  match env.Marshal ir with
  | .error err => some err
  | .ok s =>
    match env.NewRequest "PUT" (c.UpdateIssueURL issue) (some s) with
    | .error err => some err
    | .ok req =>
      let req := req.HeaderSet "Content-Type" "application/json"
      match c.Do req with
      | .error err => some err
      | .ok res =>
        if res.StatusCode = 404 then some (errors.New "Not Found")
        else
          let err : Option GoError :=
            if res.StatusCode ≠ 200 then
              match env.DecodeErrorsResult res.Body with
              | .error err => some err
              | .ok er => some (errors.New (strings.Join er.Errors "\n"))
            else none
          match err with
          | some err => some err
          | none => err

/-- URL of `DeleteIssue`. -/
def Client.DeleteIssueURL (c : Client) (id : Int) : String :=
  c.endpoint ++ "/issues/" ++ strconv.Itoa id ++ ".json?key=" ++ c.apikey

/-- `(c *Client) DeleteIssue(id int)`. -/
def Client.DeleteIssue (c : Client) (env : Env) (id : Int) : Option GoError :=
  match env.NewRequest "DELETE" (c.DeleteIssueURL id) (some "") with
  | .error err => some err
  | .ok req =>
    let req := req.HeaderSet "Content-Type" "application/json"
    match c.Do req with
    | .error err => some err
    | .ok res =>
      if res.StatusCode = 404 then some (errors.New "Not Found")
      else
        if res.StatusCode ≠ 200 then
          match env.DecodeErrorsResult res.Body with
          | .error err => some err
          | .ok er => some (errors.New (strings.Join er.Errors "\n"))
        else none

/-! ## What the claims speak of -/

/-- The request of `Issues` is answered with `res`. -/
def Client.IssuesResponds (c : Client) (res : Response) : Prop :=
  c.Get c.IssuesURL = .ok res

/-- The request of `IssuesOf` is answered with `res`. -/
def Client.IssuesOfResponds (c : Client) (projectId : Int) (res : Response) : Prop :=
  c.Get (c.IssuesOfURL projectId) = .ok res

/-- The request of `IssuesByQuery` is answered with `res`. -/
def Client.IssuesByQueryResponds (c : Client) (env : Env) (queryId : Int) (res : Response) : Prop :=
  env.httpGet (c.IssuesByQueryURL queryId) = .ok res

/-- The request of `IssuesByFilter` is built and answered with `res`. -/
def Client.IssuesByFilterResponds (c : Client) (env : Env) (ρ : RangeOrder)
    (f : Option IssueFilter) (res : Response) : Prop :=
  ∃ req, env.NewRequest "GET" (c.IssuesByFilterURL ρ f) none = .ok req ∧
    c.Do ((req.HeaderSet "Content-Type" "application/json").HeaderSet "X-Redmine-API-Key" c.apikey)
      = .ok res

/-- The request of `Issue` is answered with `res`. -/
def Client.IssueResponds (c : Client) (id : Int) (res : Response) : Prop :=
  c.Get (c.IssueURL id) = .ok res

/-- The request of `CreateIssue` is built and answered with `res`. -/
def Client.CreateIssueResponds (c : Client) (env : Env) (issue : Redmine.Issue) (res : Response) :
    Prop :=
  ∃ s req, env.Marshal { Issue := issue } = .ok s ∧
    env.NewRequest "POST" c.CreateIssueURL (some s) = .ok req ∧
    c.Do (req.HeaderSet "Content-Type" "application/json") = .ok res

/-- The request of `UpdateIssue` is built and answered with `res`. -/
def Client.UpdateIssueResponds (c : Client) (env : Env) (issue : Redmine.Issue) (res : Response) :
    Prop :=
  ∃ s req, env.Marshal { Issue := issue } = .ok s ∧
    env.NewRequest "PUT" (c.UpdateIssueURL issue) (some s) = .ok req ∧
    c.Do (req.HeaderSet "Content-Type" "application/json") = .ok res

/-- The request of `DeleteIssue` is built and answered with `res`. -/
def Client.DeleteIssueResponds (c : Client) (env : Env) (id : Int) (res : Response) : Prop :=
  ∃ req, env.NewRequest "DELETE" (c.DeleteIssueURL id) (some "") = .ok req ∧
    c.Do (req.HeaderSet "Content-Type" "application/json") = .ok res

/-- The error of a failure response, in the words of the specification: the error strings of
the body joined by a newline when the body decodes as an errors envelope, the JSON decode error
otherwise. -/
def serviceError (env : Env) (body : String) : GoError :=
  match env.DecodeErrorsResult body with
  | .ok er => GoError.errorsNew (String.intercalate "\n" er.Errors)
  | .error e => e

/-- The six scalar criteria of a filter with their query names, in the fixed order. -/
def scalarFields (f : IssueFilter) : List (String × String) :=
  [("project_id", f.ProjectId), ("subproject_id", f.SubprojectId), ("tracker_id", f.TrackerId),
   ("status_id", f.StatusId), ("assigned_to_id", f.AssignedToId), ("updated_on", f.UpdatedOn)]

/-- One query component: an ampersand, the name, an equals sign, the value as it is. -/
def component (kv : String × String) : String := "&" ++ kv.1 ++ "=" ++ kv.2

/-- The concatenation of a list of strings, left to right. -/
def concatAll : List String → String
  | [] => ""
  | s :: rest => s ++ concatAll rest

/-- The scalar-field clause in the words of the specification: one component for each scalar
field whose value is not empty, in the fixed order. -/
def scalarClause (f : IssueFilter) : String :=
  concatAll (((scalarFields f).filter (fun kv => kv.2 ≠ "")).map component)

/-- Outcome of a collection operation on the response `res`. -/
def collectionOutcome (env : Env) (res : Response) : Option (List Issue) × Option GoError :=
  if res.StatusCode = 200 then
    match env.DecodeIssuesResult res.Body with
    | .ok r => (r.Issues, none)
    | .error e => (none, some e)
  else (none, some (serviceError env res.Body))

/-- Outcome of a single-issue operation that expects the status `expected`. -/
def singleOutcome (env : Env) (expected : Int) (res : Response) : Option Issue × Option GoError :=
  if res.StatusCode = expected then
    match env.DecodeIssueRequest res.Body with
    | .ok r => (some r.Issue, none)
    | .error e => (none, some e)
  else (none, some (serviceError env res.Body))

/-! ## JSON text and the stream decoder -/

/-- JSON whitespace. -/
def isSpace (c : Char) : Bool := c = ' ' || c = '\t' || c = '\r' || c = '\n'

/-- The input without its leading whitespace. -/
def skipSpace : List Char → List Char
  | [] => []
  | c :: cs => if isSpace c then skipSpace cs else c :: cs

/-- The input without its leading digits. -/
def skipDigits : List Char → List Char
  | [] => []
  | c :: cs => if c.isDigit then skipDigits cs else c :: cs

/-- A hexadecimal digit. -/
def isHexDigit (c : Char) : Bool :=
  c.isDigit || ('a' ≤ c && c ≤ 'f') || ('A' ≤ c && c ≤ 'F')

/-- What follows a JSON string whose opening quote has been read; `none` when the string is
malformed or does not end. -/
def scanString : Nat → List Char → Option (List Char)
  | 0, _ => none
  | _ + 1, [] => none
  | n + 1, c :: cs =>
    if c = '"' then some cs
    else if c = '\\' then
      match cs with
      | [] => none
      | e :: rest =>
        if e = 'u' then
          match rest with
          | a :: b :: x :: y :: rest4 =>
            if isHexDigit a && isHexDigit b && isHexDigit x && isHexDigit y then scanString n rest4
            else none
          | _ => none
        else if ['"', '\\', '/', 'b', 'f', 'n', 'r', 't'].contains e then scanString n rest
        else none
    else if c.toNat < 32 then none
    else scanString n cs

/-- What follows the exponent part of a JSON number, if there is one. -/
def scanExponent (cs : List Char) : Option (List Char) :=
  match cs with
  | e :: rest =>
    if e = 'e' || e = 'E' then
      let rest := match rest with
        | sign :: r => if sign = '+' || sign = '-' then r else sign :: r
        | [] => []
      match rest with
      | d :: r => if d.isDigit then some (skipDigits r) else none
      | [] => none
    else some cs
  | [] => some cs

/-- What follows the fraction and exponent parts of a JSON number, if there are any. -/
def scanFraction (cs : List Char) : Option (List Char) :=
  match cs with
  | p :: rest =>
    if p = '.' then
      match rest with
      | d :: r => if d.isDigit then scanExponent (skipDigits r) else none
      | [] => none
    else scanExponent cs
  | [] => some cs

/-- What follows a JSON number at the head of the input; `none` when no number is there. -/
def scanNumber (cs : List Char) : Option (List Char) :=
  let cs := match cs with
    | m :: r => if m = '-' then r else m :: r
    | [] => []
  match cs with
  | d :: r =>
    if d = '0' then scanFraction r
    else if d.isDigit then scanFraction (skipDigits r)
    else none
  | [] => none

/-- What the scanner is reading: a value, the members of an object from a key on, or the
elements of an array from a value on. -/
inductive ScanGoal where
  | value
  | members
  | elements

/-- What follows the JSON value (members, elements) at the head of the input; `none` when the
text there is malformed or incomplete. The first argument bounds the number of steps. -/
def scanJSON : Nat → ScanGoal → List Char → Option (List Char)
  | 0, _, _ => none
  | n + 1, ScanGoal.value, cs =>
    match cs with
    | [] => none
    | c :: r =>
      if c = '\x7b' then
        match skipSpace r with
        | [] => none
        | d :: r1 => if d = '\x7d' then some r1 else scanJSON n ScanGoal.members (d :: r1)
      else if c = '[' then
        match skipSpace r with
        | [] => none
        | d :: r1 => if d = ']' then some r1 else scanJSON n ScanGoal.elements (d :: r1)
      else if c = '"' then scanString n r
      else if c = 't' then
        match r with
        | 'r' :: 'u' :: 'e' :: r1 => some r1
        | _ => none
      else if c = 'f' then
        match r with
        | 'a' :: 'l' :: 's' :: 'e' :: r1 => some r1
        | _ => none
      else if c = 'n' then
        match r with
        | 'u' :: 'l' :: 'l' :: r1 => some r1
        | _ => none
      else scanNumber (c :: r)
  | n + 1, ScanGoal.members, cs =>
    match cs with
    | [] => none
    | q :: r =>
      if q = '"' then
        match scanString n r with
        | none => none
        | some r1 =>
          match skipSpace r1 with
          | [] => none
          | colon :: r2 =>
            if colon = ':' then
              match scanJSON n ScanGoal.value (skipSpace r2) with
              | none => none
              | some r3 =>
                match skipSpace r3 with
                | [] => none
                | d :: r4 =>
                  if d = ',' then scanJSON n ScanGoal.members (skipSpace r4)
                  else if d = '\x7d' then some r4
                  else none
            else none
      else none
  | n + 1, ScanGoal.elements, cs =>
    match scanJSON n ScanGoal.value cs with
    | none => none
    | some r3 =>
      match skipSpace r3 with
      | [] => none
      | d :: r4 =>
        if d = ',' then scanJSON n ScanGoal.elements (skipSpace r4)
        else if d = ']' then some r4
        else none

/-- The first JSON value of a body, as `Decoder.Decode` takes it off the stream: leading
whitespace is skipped, one complete value is read, and what follows it is left unread. The
result is the text of the value and the unread rest; `none` when the body holds no complete,
well-formed value. -/
def firstValue (body : String) : Option (String × String) :=
  let cs := skipSpace body.toList
  match scanJSON (cs.length + 1) ScanGoal.value cs with
  | none => none
  | some rest => some (String.mk (cs.take (cs.length - rest.length)), String.mk rest)

/-- A body is syntactically valid JSON when it is one JSON value, with whitespace at most
around it. -/
def validJSON (body : String) : Bool :=
  match firstValue body with
  | none => false
  | some (_, rest) => rest.toList.all isSpace

/-- Go `quoteChar` of `encoding/json` on a printable character: the character between single
quotes, an apostrophe or a backslash escaped. -/
def quoteChar (c : Char) : String :=
  if c = Char.ofNat 39 || c = '\\' then "\x27\\" ++ String.singleton c ++ "\x27"
  else "\x27" ++ String.singleton c ++ "\x27"

/-- The error of `Decode` on a body with no complete, well-formed first value: `io.EOF` on a
body of whitespace, and the syntax error of the scanner when the first character cannot begin a
value. For an error further inside the value only the package is kept, not the text. -/
def decodeFailure (body : String) : GoError :=
  match skipSpace body.toList with
  | [] => GoError.library "io" "EOF"
  | c :: _ =>
    if c = '\x7b' || c = '[' || c = '"' || c = '-' || c.isDigit || c = 't' || c = 'f' || c = 'n'
    then GoError.library "json" "syntax error"
    else GoError.library "json"
      ("invalid character " ++ quoteChar c ++ " looking for beginning of value")

/-! ## A sample server for the concrete instances -/

/-- Body of a collection response with no issue. -/
def sampleIssuesBody : String := "\x7b\"issues\":[]\x7d"

/-- Body of a single-issue response. -/
def sampleIssueBody : String := "\x7b\"issue\":\x7b\"id\":42,\"subject\":\"x\"\x7d\x7d"

/-- Body of a failure response. -/
def sampleErrorsBody : String :=
  "\x7b\"errors\":[\"Subject cannot be blank\",\"Tracker is invalid\"]\x7d"

/-- Body of a failure response with no message. -/
def sampleNoErrorsBody : String := "\x7b\"errors\":[]\x7d"

/-- Body that is not JSON. -/
def sampleBadBody : String := "<html>Bad Gateway</html>"

/-- Body that is not JSON and starts with a complete JSON value, an empty object. -/
def sampleTrailingBody : String := "\x7b\x7d<html>Bad Gateway</html>"

/-- The error of `Decode` on `sampleBadBody`. -/
def sampleSyntaxError : GoError :=
  GoError.library "json" "invalid character \x27<\x27 looking for beginning of value"

/-- The error of the sample decoders on a value that is none of the sample values. -/
def sampleOutsideError : GoError := GoError.library "json" "value outside the sample values"

/-- The library on the sample bodies. `Decode` takes the first JSON value off the body
(`firstValue`) and fails with `decodeFailure` when there is none; on the sample values the
value is unmarshalled as `encoding/json` does (a key the target struct does not have is
skipped, a field with no key keeps its zero value). Requests are always built; `Marshal` gives
a fixed text; `http.Get` answers with status `status` and body `body`. -/
def sampleEnv (status : Int) (body : String) : Env where
  httpGet := fun _ => .ok ⟨status, body⟩
  NewRequest := fun method url b => .ok { Method := method, URL := url, Body := b }
  Marshal := fun _ => .ok "\x7b\"issue\":\x7b\x7d\x7d"
  DecodeErrorsResult := fun b =>
    match firstValue b with
    | none => .error (decodeFailure b)
    | some (v, _) =>
      if v = sampleErrorsBody then .ok ⟨["Subject cannot be blank", "Tracker is invalid"]⟩
      else if v = sampleNoErrorsBody ∨ v = sampleIssuesBody ∨ v = sampleIssueBody
        ∨ v = "\x7b\x7d" then .ok ⟨[]⟩
      else .error sampleOutsideError
  DecodeIssueRequest := fun b =>
    match firstValue b with
    | none => .error (decodeFailure b)
    | some (v, _) =>
      if v = sampleIssueBody then .ok ⟨{ Id := 42, Subject := "x" }⟩
      else if v = sampleErrorsBody ∨ v = sampleNoErrorsBody ∨ v = sampleIssuesBody
        ∨ v = "\x7b\x7d" then .ok ⟨{}⟩
      else .error sampleOutsideError
  DecodeIssuesResult := fun b =>
    match firstValue b with
    | none => .error (decodeFailure b)
    | some (v, _) =>
      if v = sampleIssuesBody then .ok ⟨some []⟩
      else if v = sampleErrorsBody ∨ v = sampleNoErrorsBody ∨ v = sampleIssueBody
        ∨ v = "\x7b\x7d" then .ok ⟨none⟩
      else .error sampleOutsideError

/-- A client whose transport answers every request with status `status` and body `body`. -/
def sampleClient (status : Int) (body : String) : Client where
  endpoint := "http://redmine.example"
  apikey := "k"
  getPaginationClause := "&limit=25"
  Get := fun _ => .ok ⟨status, body⟩
  Do := fun _ => .ok ⟨status, body⟩

/-- A filter with two scalar criteria and two extra criteria. -/
def sampleFilter : IssueFilter :=
  { ProjectId := "7", StatusId := "open",
    ExtraFilters := some ⟨[("cf_1", "a"), ("sort", "id:desc")], by decide⟩ }

/-! ## Lemmas on strings and lists -/

theorem concatAll_append (xs ys : List String) :
    concatAll (xs ++ ys) = concatAll xs ++ concatAll ys := by
  induction xs with
  | nil => simp [concatAll]
  | cons x xs ih => simp [concatAll, ih, String.append_assoc]

theorem strings_Join_cons (sep a : String) (l : List String) :
    strings.Join (a :: l) sep = a ++ concatAll (l.map (fun x => sep ++ x)) := by
  induction l generalizing a with
  | nil => simp [strings.Join, concatAll]
  | cons b rest ih => simp [strings.Join, concatAll, ih, String.append_assoc]

theorem intercalate_go_eq (sep : String) (l : List String) (acc : String) :
    String.intercalate.go acc sep l = acc ++ concatAll (l.map (fun x => sep ++ x)) := by
  induction l generalizing acc with
  | nil => simp [String.intercalate.go, concatAll]
  | cons b rest ih => simp [String.intercalate.go, concatAll, ih, String.append_assoc]

theorem strings_Join_eq_intercalate (l : List String) (sep : String) :
    strings.Join l sep = String.intercalate sep l := by
  cases l with
  | nil => simp [strings.Join, String.intercalate]
  | cons a rest => simp [String.intercalate, strings_Join_cons, intercalate_go_eq]

theorem foldl_append_singleton {α β : Type} (f : α → β) (l : List α) (acc : List β) :
    l.foldl (fun acc x => acc ++ [f x]) acc = acc ++ l.map f := by
  induction l generalizing acc with
  | nil => simp
  | cons x xs ih => simp [ih]

theorem amp_Join_eq_concatAll (l : List String) (h : l ≠ []) :
    "&" ++ strings.Join l "&" = concatAll (l.map (fun x => "&" ++ x)) := by
  cases l with
  | nil => exact absurd rfl h
  | cons a rest => simp [strings_Join_cons, concatAll, String.append_assoc]

theorem Itoa_eq_toString (i : Int) : strconv.Itoa i = toString i := by
  cases i with
  | ofNat n =>
    have h : ¬ ((n : Int) < 0) := by omega
    simp [strconv.Itoa, h, toString, instToStringInt]
  | negSucc n =>
    have h : Int.negSucc n < 0 := Int.negSucc_lt_zero n
    simp [strconv.Itoa, h, toString, instToStringInt, Int.natAbs]

/-! ## The filter clause -/

theorem getIssueFilterClause_some (ρ : RangeOrder) (f : IssueFilter) :
    getIssueFilterClause ρ (some f) =
      scalarClause f ++
        (match f.ExtraFilters with
         | some m => "&" ++ strings.Join ((ρ.visit m.entries).map (fun kv => kv.1 ++ "=" ++ kv.2)) "&"
         | none => "") := by
  have hfold : ∀ l : List (String × String),
      l.foldl (fun acc kv => acc ++ [kv.1 ++ "=" ++ kv.2]) ([] : List String)
        = l.map (fun kv => kv.1 ++ "=" ++ kv.2) := by
    intro l
    simpa using foldl_append_singleton (fun kv : String × String => kv.1 ++ "=" ++ kv.2) l []
  unfold getIssueFilterClause scalarClause scalarFields
  simp only [hfold]
  by_cases h1 : f.ProjectId = "" <;> by_cases h2 : f.SubprojectId = "" <;>
    by_cases h3 : f.TrackerId = "" <;> by_cases h4 : f.StatusId = "" <;>
    by_cases h5 : f.AssignedToId = "" <;> by_cases h6 : f.UpdatedOn = "" <;>
    cases hm : f.ExtraFilters <;>
    simp [h1, h2, h3, h4, h5, h6, concatAll, component, String.append_assoc]

/-- With no filter at all the clause is empty. -/
theorem getIssueFilterClause_nil (ρ : RangeOrder) : getIssueFilterClause ρ none = "" := rfl

/-- With a nil `ExtraFilters` map the clause is the scalar-field clause. -/
theorem getIssueFilterClause_nil_map (ρ : RangeOrder) (f : IssueFilter)
    (h : f.ExtraFilters = none) : getIssueFilterClause ρ (some f) = scalarClause f := by
  rw [getIssueFilterClause_some, h]
  simp

/-- With a nil `ExtraFilters` map and six empty scalar fields the clause is empty. -/
theorem getIssueFilterClause_nil_map_empty (ρ : RangeOrder) (f : IssueFilter)
    (h : f.ExtraFilters = none) (h1 : f.ProjectId = "") (h2 : f.SubprojectId = "")
    (h3 : f.TrackerId = "") (h4 : f.StatusId = "") (h5 : f.AssignedToId = "")
    (h6 : f.UpdatedOn = "") : getIssueFilterClause ρ (some f) = "" := by
  rw [getIssueFilterClause_nil_map ρ f h]
  simp [scalarClause, scalarFields, h1, h2, h3, h4, h5, h6, concatAll]

/-- With an `ExtraFilters` map that is present and has no entry, an ampersand follows the
scalar-field clause. -/
theorem getIssueFilterClause_empty_map (ρ : RangeOrder) (f : IssueFilter) (m : StringMap)
    (h : f.ExtraFilters = some m) (hm : m.entries = []) :
    getIssueFilterClause ρ (some f) = scalarClause f ++ "&" := by
  have hv : ρ.visit m.entries = [] := by
    have := ρ.perm m.entries
    rw [hm] at this
    rw [hm]
    exact List.Perm.eq_nil this
  rw [getIssueFilterClause_some, h]
  simp [hv, strings.Join]

/-- C6: evaluation on a filter with six empty scalar fields and a present, empty `ExtraFilters`
map: for every range order `getIssueFilterClause` returns an ampersand, not the empty string. -/
theorem C6_empty_map_gives_ampersand (ρ : RangeOrder) :
    getIssueFilterClause ρ (some { ExtraFilters := some StringMap.empty }) = "&" ∧
      getIssueFilterClause ρ (some { ExtraFilters := some StringMap.empty }) ≠ "" := by
  have h := getIssueFilterClause_empty_map ρ { ExtraFilters := some StringMap.empty }
    StringMap.empty rfl rfl
  have hs : scalarClause { ExtraFilters := some StringMap.empty } = "" := by decide
  rw [hs] at h
  rw [h]
  exact ⟨by decide, by decide⟩

/-- C7: evaluation on a filter whose only populated scalar field is `ProjectId` and whose
`ExtraFilters` map is present and empty: for every range order `getIssueFilterClause` returns
the component of the project followed by an ampersand, which is not the concatenation of the
components of the populated scalar fields. -/
theorem C7_empty_map_trailing_ampersand (ρ : RangeOrder) :
    getIssueFilterClause ρ (some { ProjectId := "1", ExtraFilters := some StringMap.empty })
        = "&project_id=1&" ∧
      scalarClause { ProjectId := "1", ExtraFilters := some StringMap.empty } = "&project_id=1" ∧
      getIssueFilterClause ρ (some { ProjectId := "1", ExtraFilters := some StringMap.empty })
        ≠ scalarClause { ProjectId := "1", ExtraFilters := some StringMap.empty } := by
  have h := getIssueFilterClause_empty_map ρ
    { ProjectId := "1", ExtraFilters := some StringMap.empty } StringMap.empty rfl rfl
  have hs : scalarClause { ProjectId := "1", ExtraFilters := some StringMap.empty }
      = "&project_id=1" := by decide
  rw [hs] at h
  rw [h, hs]
  exact ⟨by decide, rfl, by decide⟩

/-- C8: for a filter whose `ExtraFilters` map has at least one entry, the clause is the
scalar-field clause followed by one component (ampersand, key, equals sign, value) for each
entry of the map, in some order of the entries, and nothing else. -/
theorem C8_extra_filters_appended (ρ : RangeOrder) (f : IssueFilter) (m : StringMap)
    (h : f.ExtraFilters = some m) (hne : m.entries ≠ []) :
    ∃ ord : List (String × String), ord.Perm m.entries ∧
      getIssueFilterClause ρ (some f) = scalarClause f ++ concatAll (ord.map component) := by
  refine ⟨ρ.visit m.entries, ρ.perm m.entries, ?_⟩
  have hv : ρ.visit m.entries ≠ [] := by
    intro h0
    have := ρ.perm m.entries
    rw [h0] at this
    exact hne (List.Perm.nil_eq this).symm
  have hmap : (ρ.visit m.entries).map (fun kv => kv.1 ++ "=" ++ kv.2) ≠ [] := by
    simpa using hv
  rw [getIssueFilterClause_some, h]
  simp only
  rw [amp_Join_eq_concatAll _ hmap, List.map_map]
  congr 2

theorem C8_extra_filters_appended_witness :
    ∃ ord : List (String × String), ord.Perm [("cf_1", "a"), ("sort", "id:desc")] ∧
      getIssueFilterClause RangeOrder.reversed (some sampleFilter)
        = scalarClause sampleFilter ++ concatAll (ord.map component) :=
  C8_extra_filters_appended RangeOrder.reversed sampleFilter
    ⟨[("cf_1", "a"), ("sort", "id:desc")], by decide⟩ rfl (by decide)

/-! ## The title -/

/-- C9: for an issue whose tracker is present, `GetTitle` returns the tracker name, a space and
a hash sign, the decimal rendering of the id, a colon and a space, and the subject. -/
theorem C9_GetTitle (issue : Issue) (tracker : IdName) (h : issue.Tracker = some tracker) :
    issue.GetTitle = some (tracker.Name ++ " #" ++ toString issue.Id ++ ": " ++ issue.Subject) := by
  simp [Issue.GetTitle, h, Itoa_eq_toString]

theorem C9_GetTitle_witness :
    Issue.GetTitle { Id := 7, Subject := "Crash", Tracker := some { Name := "Bug" } }
      = some "Bug #7: Crash" :=
  (C9_GetTitle { Id := 7, Subject := "Crash", Tracker := some { Name := "Bug" } }
    { Name := "Bug" } rfl).trans (by decide)

/-! ## The operations on an answered request -/

theorem Issues_of_response (c : Client) (env : Env) (res : Response)
    (h : c.IssuesResponds res) : c.Issues env = collectionOutcome env res := by
  unfold Client.IssuesResponds at h
  unfold Client.Issues collectionOutcome serviceError
  rw [h]
  by_cases hs : res.StatusCode = 200
  · cases hd : env.DecodeIssuesResult res.Body <;> simp [hs, hd]
  · cases hd : env.DecodeErrorsResult res.Body <;>
      simp [hs, hd, errors.New, strings_Join_eq_intercalate]

theorem IssuesOf_of_response (c : Client) (env : Env) (projectId : Int) (res : Response)
    (h : c.IssuesOfResponds projectId res) :
    c.IssuesOf env projectId = collectionOutcome env res := by
  unfold Client.IssuesOfResponds at h
  unfold Client.IssuesOf collectionOutcome serviceError
  rw [h]
  by_cases hs : res.StatusCode = 200
  · cases hd : env.DecodeIssuesResult res.Body <;> simp [hs, hd]
  · cases hd : env.DecodeErrorsResult res.Body <;>
      simp [hs, hd, errors.New, strings_Join_eq_intercalate]

theorem IssuesByQuery_of_response (c : Client) (env : Env) (queryId : Int) (res : Response)
    (h : c.IssuesByQueryResponds env queryId res) :
    c.IssuesByQuery env queryId = collectionOutcome env res := by
  unfold Client.IssuesByQueryResponds at h
  unfold Client.IssuesByQuery collectionOutcome serviceError
  rw [h]
  by_cases hs : res.StatusCode = 200
  · cases hd : env.DecodeIssuesResult res.Body <;> simp [hs, hd]
  · cases hd : env.DecodeErrorsResult res.Body <;>
      simp [hs, hd, errors.New, strings_Join_eq_intercalate]

theorem IssuesByFilter_of_response (c : Client) (env : Env) (ρ : RangeOrder)
    (f : Option IssueFilter) (res : Response) (h : c.IssuesByFilterResponds env ρ f res) :
    c.IssuesByFilter env ρ f = collectionOutcome env res := by
  obtain ⟨req, hreq, hdo⟩ := h
  unfold Client.IssuesByFilter collectionOutcome serviceError
  rw [hreq]
  simp only
  rw [hdo]
  by_cases hs : res.StatusCode = 200
  · cases hd : env.DecodeIssuesResult res.Body <;> simp [hs, hd]
  · cases hd : env.DecodeErrorsResult res.Body <;>
      simp [hs, hd, errors.New, strings_Join_eq_intercalate]

theorem Issue_of_response (c : Client) (env : Env) (id : Int) (res : Response)
    (h : c.IssueResponds id res) :
    c.Issue env id =
      if res.StatusCode = 404 then (none, some (errors.New "Not Found"))
      else singleOutcome env 200 res := by
  unfold Client.IssueResponds at h
  unfold Client.Issue singleOutcome serviceError
  rw [h]
  by_cases h4 : res.StatusCode = 404
  · simp [h4]
  · by_cases hs : res.StatusCode = 200
    · cases hd : env.DecodeIssueRequest res.Body <;> simp [hs, hd]
    · cases hd : env.DecodeErrorsResult res.Body <;>
        simp [h4, hs, hd, errors.New, strings_Join_eq_intercalate]

theorem CreateIssue_of_response (c : Client) (env : Env) (issue : Issue) (res : Response)
    (h : c.CreateIssueResponds env issue res) :
    c.CreateIssue env issue = singleOutcome env 201 res := by
  obtain ⟨s, req, hs, hreq, hdo⟩ := h
  unfold Client.CreateIssue singleOutcome serviceError
  simp only
  rw [hs]
  simp only
  rw [hreq]
  simp only
  rw [hdo]
  by_cases hs : res.StatusCode = 201
  · cases hd : env.DecodeIssueRequest res.Body <;> simp [hs, hd]
  · cases hd : env.DecodeErrorsResult res.Body <;>
      simp [hs, hd, errors.New, strings_Join_eq_intercalate]

theorem UpdateIssue_of_response (c : Client) (env : Env) (issue : Issue) (res : Response)
    (h : c.UpdateIssueResponds env issue res) :
    c.UpdateIssue env issue =
      if res.StatusCode = 404 then some (errors.New "Not Found")
      else if res.StatusCode = 200 then none
      else some (serviceError env res.Body) := by
  obtain ⟨s, req, hs, hreq, hdo⟩ := h
  unfold Client.UpdateIssue serviceError
  simp only
  rw [hs]
  simp only
  rw [hreq]
  simp only
  rw [hdo]
  by_cases h4 : res.StatusCode = 404
  · simp [h4]
  · by_cases hs : res.StatusCode = 200
    · simp [hs]
    · cases hd : env.DecodeErrorsResult res.Body <;>
        simp [h4, hs, hd, errors.New, strings_Join_eq_intercalate]

theorem DeleteIssue_of_response (c : Client) (env : Env) (id : Int) (res : Response)
    (h : c.DeleteIssueResponds env id res) :
    c.DeleteIssue env id =
      if res.StatusCode = 404 then some (errors.New "Not Found")
      else if res.StatusCode = 200 then none
      else some (serviceError env res.Body) := by
  obtain ⟨req, hreq, hdo⟩ := h
  unfold Client.DeleteIssue serviceError
  rw [hreq]
  simp only
  rw [hdo]
  by_cases h4 : res.StatusCode = 404
  · simp [h4]
  · by_cases hs : res.StatusCode = 200
    · simp [hs]
    · cases hd : env.DecodeErrorsResult res.Body <;>
        simp [h4, hs, hd, errors.New, strings_Join_eq_intercalate]

/-! ## Status dispatch -/

/-- C1: when the request of `Issue`, `UpdateIssue` or `DeleteIssue` is answered with status 404,
the operation returns the error `errors.New("Not Found")` (and `Issue` no issue), whatever the
body is and whatever the decoders would make of it. -/
theorem C1_not_found_on_404 (c : Client) (env : Env) (id : Int) (issue : Issue) (res : Response)
    (h404 : res.StatusCode = 404) :
    (c.IssueResponds id res → c.Issue env id = (none, some (errors.New "Not Found"))) ∧
    (c.UpdateIssueResponds env issue res →
      c.UpdateIssue env issue = some (errors.New "Not Found")) ∧
    (c.DeleteIssueResponds env id res →
      c.DeleteIssue env id = some (errors.New "Not Found")) := by
  refine ⟨fun h => ?_, fun h => ?_, fun h => ?_⟩
  · rw [Issue_of_response c env id res h, if_pos h404]
  · rw [UpdateIssue_of_response c env issue res h, if_pos h404]
  · rw [DeleteIssue_of_response c env id res h, if_pos h404]

theorem C1_not_found_on_404_witness :
    (sampleEnv 404 sampleErrorsBody).DecodeErrorsResult sampleErrorsBody
        = .ok ⟨["Subject cannot be blank", "Tracker is invalid"]⟩ ∧
    (sampleClient 404 sampleErrorsBody).Issue (sampleEnv 404 sampleErrorsBody) 5
        = (none, some (GoError.errorsNew "Not Found")) ∧
    (sampleClient 404 sampleErrorsBody).UpdateIssue (sampleEnv 404 sampleErrorsBody) { Id := 5 }
        = some (GoError.errorsNew "Not Found") ∧
    (sampleClient 404 sampleErrorsBody).DeleteIssue (sampleEnv 404 sampleErrorsBody) 5
        = some (GoError.errorsNew "Not Found") :=
  have t := C1_not_found_on_404 (sampleClient 404 sampleErrorsBody)
    (sampleEnv 404 sampleErrorsBody) 5 { Id := 5 } ⟨404, sampleErrorsBody⟩ rfl
  ⟨rfl, t.1 rfl, t.2.1 ⟨_, _, rfl, rfl, rfl⟩, t.2.2 ⟨_, rfl, rfl⟩⟩

/-- C2: when the request of a collection operation is answered with a status other than 200,
the request of `Issue` with a status other than 200 and 404, or the request of `CreateIssue`
with a status other than 201, the operation returns no data and an error: the error strings of
the body joined by a newline when the body decodes as an errors envelope, the decode error
otherwise. With an empty list of error strings the error is `errors.New("")`, not nil. -/
theorem C2_failure_status_gives_error (c : Client) (env : Env) (projectId queryId id : Int)
    (ρ : RangeOrder) (f : Option IssueFilter) (issue : Issue) (res : Response) :
    (c.IssuesResponds res → res.StatusCode ≠ 200 →
      c.Issues env = (none, some (serviceError env res.Body))) ∧
    (c.IssuesOfResponds projectId res → res.StatusCode ≠ 200 →
      c.IssuesOf env projectId = (none, some (serviceError env res.Body))) ∧
    (c.IssuesByQueryResponds env queryId res → res.StatusCode ≠ 200 →
      c.IssuesByQuery env queryId = (none, some (serviceError env res.Body))) ∧
    (c.IssuesByFilterResponds env ρ f res → res.StatusCode ≠ 200 →
      c.IssuesByFilter env ρ f = (none, some (serviceError env res.Body))) ∧
    (c.IssueResponds id res → res.StatusCode ≠ 200 → res.StatusCode ≠ 404 →
      c.Issue env id = (none, some (serviceError env res.Body))) ∧
    (c.CreateIssueResponds env issue res → res.StatusCode ≠ 201 →
      c.CreateIssue env issue = (none, some (serviceError env res.Body))) ∧
    (env.DecodeErrorsResult res.Body = .ok ⟨[]⟩ →
      serviceError env res.Body = errors.New "") := by
  refine ⟨fun h hs => ?_, fun h hs => ?_, fun h hs => ?_, fun h hs => ?_, fun h hs h4 => ?_,
    fun h hs => ?_, fun h => ?_⟩
  · rw [Issues_of_response c env res h, collectionOutcome, if_neg hs]
  · rw [IssuesOf_of_response c env projectId res h, collectionOutcome, if_neg hs]
  · rw [IssuesByQuery_of_response c env queryId res h, collectionOutcome, if_neg hs]
  · rw [IssuesByFilter_of_response c env ρ f res h, collectionOutcome, if_neg hs]
  · rw [Issue_of_response c env id res h, if_neg h4, singleOutcome, if_neg hs]
  · rw [CreateIssue_of_response c env issue res h, singleOutcome, if_neg hs]
  · simp [serviceError, h, errors.New, String.intercalate]

theorem C2_failure_status_gives_error_witness :
    (sampleClient 500 sampleNoErrorsBody).Issues (sampleEnv 500 sampleNoErrorsBody)
        = (none, some (GoError.errorsNew "")) ∧
    (sampleClient 500 sampleNoErrorsBody).IssuesOf (sampleEnv 500 sampleNoErrorsBody) 3
        = (none, some (GoError.errorsNew "")) ∧
    (sampleClient 500 sampleNoErrorsBody).IssuesByQuery (sampleEnv 500 sampleNoErrorsBody) 4
        = (none, some (GoError.errorsNew "")) ∧
    (sampleClient 500 sampleNoErrorsBody).IssuesByFilter (sampleEnv 500 sampleNoErrorsBody)
        RangeOrder.listed (some sampleFilter) = (none, some (GoError.errorsNew "")) ∧
    (sampleClient 500 sampleNoErrorsBody).Issue (sampleEnv 500 sampleNoErrorsBody) 5
        = (none, some (GoError.errorsNew "")) ∧
    (sampleClient 500 sampleNoErrorsBody).CreateIssue (sampleEnv 500 sampleNoErrorsBody)
        { Subject := "draft" } = (none, some (GoError.errorsNew "")) :=
  have t := C2_failure_status_gives_error (sampleClient 500 sampleNoErrorsBody)
    (sampleEnv 500 sampleNoErrorsBody) 3 4 5 RangeOrder.listed (some sampleFilter)
    { Subject := "draft" } ⟨500, sampleNoErrorsBody⟩
  have e : serviceError (sampleEnv 500 sampleNoErrorsBody) sampleNoErrorsBody
      = GoError.errorsNew "" := t.2.2.2.2.2.2 rfl
  ⟨(t.1 rfl (by decide)).trans (by rw [e]),
   (t.2.1 rfl (by decide)).trans (by rw [e]),
   (t.2.2.1 rfl (by decide)).trans (by rw [e]),
   (t.2.2.2.1 ⟨_, rfl, rfl⟩ (by decide)).trans (by rw [e]),
   (t.2.2.2.2.1 rfl (by decide) (by decide)).trans (by rw [e]),
   (t.2.2.2.2.2.1 ⟨_, _, rfl, rfl, rfl⟩ (by decide)).trans (by rw [e])⟩

/-- C3, as stated, fails: the request of `Issues` is answered with status 201 and a body that
decodes as the success envelope with an empty collection, and `Issues` returns no collection
and the error `errors.New("")`. -/
theorem C3_counterexample_Issues_201 :
    (sampleClient 201 sampleIssuesBody).IssuesResponds ⟨201, sampleIssuesBody⟩ ∧
    (sampleEnv 201 sampleIssuesBody).DecodeIssuesResult sampleIssuesBody = .ok ⟨some []⟩ ∧
    (sampleClient 201 sampleIssuesBody).Issues (sampleEnv 201 sampleIssuesBody)
      = (none, some (GoError.errorsNew "")) ∧
    (sampleClient 201 sampleIssuesBody).Issues (sampleEnv 201 sampleIssuesBody)
      ≠ (some [], none) := by
  have h : (sampleClient 201 sampleIssuesBody).Issues (sampleEnv 201 sampleIssuesBody)
      = (none, some (GoError.errorsNew "")) := rfl
  refine ⟨rfl, rfl, h, ?_⟩
  rw [h]
  intro hc
  exact Option.noConfusion (congrArg Prod.fst hc)

/-- C3, amended: when the request of a retrieval operation is answered with status 200, or the
request of `CreateIssue` with status 201, and the body decodes as the success envelope, the
operation returns the issue collection (the issue) of the envelope and a nil error. -/
theorem C3_success_status_gives_payload (c : Client) (env : Env) (projectId queryId id : Int)
    (ρ : RangeOrder) (f : Option IssueFilter) (issue : Issue) (res : Response)
    (rs : issuesResult) (r : issueRequest) :
    (c.IssuesResponds res → res.StatusCode = 200 → env.DecodeIssuesResult res.Body = .ok rs →
      c.Issues env = (rs.Issues, none)) ∧
    (c.IssuesOfResponds projectId res → res.StatusCode = 200 →
      env.DecodeIssuesResult res.Body = .ok rs → c.IssuesOf env projectId = (rs.Issues, none)) ∧
    (c.IssuesByQueryResponds env queryId res → res.StatusCode = 200 →
      env.DecodeIssuesResult res.Body = .ok rs →
      c.IssuesByQuery env queryId = (rs.Issues, none)) ∧
    (c.IssuesByFilterResponds env ρ f res → res.StatusCode = 200 →
      env.DecodeIssuesResult res.Body = .ok rs →
      c.IssuesByFilter env ρ f = (rs.Issues, none)) ∧
    (c.IssueResponds id res → res.StatusCode = 200 → env.DecodeIssueRequest res.Body = .ok r →
      c.Issue env id = (some r.Issue, none)) ∧
    (c.CreateIssueResponds env issue res → res.StatusCode = 201 →
      env.DecodeIssueRequest res.Body = .ok r → c.CreateIssue env issue = (some r.Issue, none)) := by
  refine ⟨fun h hs hd => ?_, fun h hs hd => ?_, fun h hs hd => ?_, fun h hs hd => ?_,
    fun h hs hd => ?_, fun h hs hd => ?_⟩
  · rw [Issues_of_response c env res h, collectionOutcome, if_pos hs, hd]
  · rw [IssuesOf_of_response c env projectId res h, collectionOutcome, if_pos hs, hd]
  · rw [IssuesByQuery_of_response c env queryId res h, collectionOutcome, if_pos hs, hd]
  · rw [IssuesByFilter_of_response c env ρ f res h, collectionOutcome, if_pos hs, hd]
  · have h4 : res.StatusCode ≠ 404 := by rw [hs]; decide
    rw [Issue_of_response c env id res h, if_neg h4, singleOutcome, if_pos hs, hd]
  · rw [CreateIssue_of_response c env issue res h, singleOutcome, if_pos hs, hd]

theorem C3_success_status_gives_payload_witness :
    (sampleClient 200 sampleIssuesBody).Issues (sampleEnv 200 sampleIssuesBody)
        = (some [], none) ∧
    (sampleClient 200 sampleIssuesBody).IssuesOf (sampleEnv 200 sampleIssuesBody) 3
        = (some [], none) ∧
    (sampleClient 200 sampleIssuesBody).IssuesByQuery (sampleEnv 200 sampleIssuesBody) 4
        = (some [], none) ∧
    (sampleClient 200 sampleIssuesBody).IssuesByFilter (sampleEnv 200 sampleIssuesBody)
        RangeOrder.listed (some sampleFilter) = (some [], none) ∧
    (sampleClient 200 sampleIssueBody).Issue (sampleEnv 200 sampleIssueBody) 42
        = (some { Id := 42, Subject := "x" }, none) ∧
    (sampleClient 201 sampleIssueBody).CreateIssue (sampleEnv 201 sampleIssueBody)
        { Subject := "draft" } = (some { Id := 42, Subject := "x" }, none) :=
  have t := C3_success_status_gives_payload (sampleClient 200 sampleIssuesBody)
    (sampleEnv 200 sampleIssuesBody) 3 4 42 RangeOrder.listed (some sampleFilter)
    { Subject := "draft" } ⟨200, sampleIssuesBody⟩ ⟨some []⟩ ⟨{ Id := 42, Subject := "x" }⟩
  have u := C3_success_status_gives_payload (sampleClient 200 sampleIssueBody)
    (sampleEnv 200 sampleIssueBody) 3 4 42 RangeOrder.listed (some sampleFilter)
    { Subject := "draft" } ⟨200, sampleIssueBody⟩ ⟨some []⟩ ⟨{ Id := 42, Subject := "x" }⟩
  have v := C3_success_status_gives_payload (sampleClient 201 sampleIssueBody)
    (sampleEnv 201 sampleIssueBody) 3 4 42 RangeOrder.listed (some sampleFilter)
    { Subject := "draft" } ⟨201, sampleIssueBody⟩ ⟨some []⟩ ⟨{ Id := 42, Subject := "x" }⟩
  ⟨t.1 rfl rfl rfl, t.2.1 rfl rfl rfl, t.2.2.1 rfl rfl rfl, t.2.2.2.1 ⟨_, rfl, rfl⟩ rfl rfl,
   u.2.2.2.2.1 rfl rfl rfl, v.2.2.2.2.2 ⟨_, _, rfl, rfl, rfl⟩ rfl rfl⟩

/-- C4: for every submitted issue, when the request of `CreateIssue` is answered with status 201
and the body decodes to the envelope of the issue `i`, `CreateIssue` returns `i` and a nil
error. -/
theorem C4_CreateIssue_returns_server_issue (c : Client) (env : Env) (issue i : Issue)
    (res : Response) (h : c.CreateIssueResponds env issue res) (h201 : res.StatusCode = 201)
    (hd : env.DecodeIssueRequest res.Body = .ok ⟨i⟩) :
    c.CreateIssue env issue = (some i, none) := by
  rw [CreateIssue_of_response c env issue res h, singleOutcome, if_pos h201, hd]

theorem C4_CreateIssue_returns_server_issue_witness :
    ∃ i : Issue, i.Id = 42 ∧ i.Subject = "x" ∧
      (sampleClient 201 sampleIssueBody).CreateIssue (sampleEnv 201 sampleIssueBody)
        { Id := 0, Subject := "submitted" } = (some i, none) :=
  ⟨{ Id := 42, Subject := "x" }, rfl, rfl,
    C4_CreateIssue_returns_server_issue (sampleClient 201 sampleIssueBody)
      (sampleEnv 201 sampleIssueBody) { Id := 0, Subject := "submitted" }
      { Id := 42, Subject := "x" } ⟨201, sampleIssueBody⟩ ⟨_, _, rfl, rfl, rfl⟩ rfl rfl⟩

/-- C5, as stated, fails: the request of `Issues` is answered with status 200 and a body that
is not syntactically valid JSON, an empty object followed by markup. `Decode` takes the empty
object off the stream and leaves the rest unread, and `Issues` returns a nil collection and a
nil error. -/
theorem C5_counterexample_trailing_text :
    validJSON sampleTrailingBody = false ∧
    firstValue sampleTrailingBody = some ("\x7b\x7d", "<html>Bad Gateway</html>") ∧
    (sampleClient 200 sampleTrailingBody).IssuesResponds ⟨200, sampleTrailingBody⟩ ∧
    (sampleClient 200 sampleTrailingBody).Issues (sampleEnv 200 sampleTrailingBody)
      = (none, none) :=
  ⟨by decide, by decide, rfl, rfl⟩

/-- C5, amended: when the request of a retrieval operation is answered with status 200 and
`Decode` reports an error on the body, the operation returns a nil result and that error, so
never a nil error. -/
theorem C5_bad_body_on_200_gives_decode_error (c : Client) (env : Env)
    (projectId queryId id : Int) (ρ : RangeOrder) (f : Option IssueFilter) (res : Response)
    (e : GoError) :
    (c.IssuesResponds res → res.StatusCode = 200 → env.DecodeIssuesResult res.Body = .error e →
      c.Issues env = (none, some e)) ∧
    (c.IssuesOfResponds projectId res → res.StatusCode = 200 →
      env.DecodeIssuesResult res.Body = .error e → c.IssuesOf env projectId = (none, some e)) ∧
    (c.IssuesByQueryResponds env queryId res → res.StatusCode = 200 →
      env.DecodeIssuesResult res.Body = .error e →
      c.IssuesByQuery env queryId = (none, some e)) ∧
    (c.IssuesByFilterResponds env ρ f res → res.StatusCode = 200 →
      env.DecodeIssuesResult res.Body = .error e →
      c.IssuesByFilter env ρ f = (none, some e)) ∧
    (c.IssueResponds id res → res.StatusCode = 200 →
      env.DecodeIssueRequest res.Body = .error e → c.Issue env id = (none, some e)) := by
  refine ⟨fun h hs hd => ?_, fun h hs hd => ?_, fun h hs hd => ?_, fun h hs hd => ?_,
    fun h hs hd => ?_⟩
  · rw [Issues_of_response c env res h, collectionOutcome, if_pos hs, hd]
  · rw [IssuesOf_of_response c env projectId res h, collectionOutcome, if_pos hs, hd]
  · rw [IssuesByQuery_of_response c env queryId res h, collectionOutcome, if_pos hs, hd]
  · rw [IssuesByFilter_of_response c env ρ f res h, collectionOutcome, if_pos hs, hd]
  · have h4 : res.StatusCode ≠ 404 := by rw [hs]; decide
    rw [Issue_of_response c env id res h, if_neg h4, singleOutcome, if_pos hs, hd]

theorem C5_bad_body_on_200_gives_decode_error_witness :
    (sampleClient 200 sampleBadBody).Issues (sampleEnv 200 sampleBadBody)
        = (none, some sampleSyntaxError) ∧
    (sampleClient 200 sampleBadBody).IssuesOf (sampleEnv 200 sampleBadBody) 3
        = (none, some sampleSyntaxError) ∧
    (sampleClient 200 sampleBadBody).IssuesByQuery (sampleEnv 200 sampleBadBody) 4
        = (none, some sampleSyntaxError) ∧
    (sampleClient 200 sampleBadBody).IssuesByFilter (sampleEnv 200 sampleBadBody)
        RangeOrder.listed none = (none, some sampleSyntaxError) ∧
    (sampleClient 200 sampleBadBody).Issue (sampleEnv 200 sampleBadBody) 5
        = (none, some sampleSyntaxError) :=
  have t := C5_bad_body_on_200_gives_decode_error (sampleClient 200 sampleBadBody)
    (sampleEnv 200 sampleBadBody) 3 4 5 RangeOrder.listed none ⟨200, sampleBadBody⟩
    sampleSyntaxError
  ⟨t.1 rfl rfl rfl, t.2.1 rfl rfl rfl, t.2.2.1 rfl rfl rfl, t.2.2.2.1 ⟨_, rfl, rfl⟩ rfl rfl,
   t.2.2.2.2 rfl rfl rfl⟩

/-- C10: when the request of `UpdateIssue` or `DeleteIssue` is built and answered, the operation
returns a nil error exactly when the status is 200, whatever the body is and whatever the
decoders would make of it. -/
theorem C10_nil_error_iff_200 (c : Client) (env : Env) (issue : Issue) (id : Int)
    (res : Response) :
    (c.UpdateIssueResponds env issue res →
      (c.UpdateIssue env issue = none ↔ res.StatusCode = 200)) ∧
    (c.DeleteIssueResponds env id res →
      (c.DeleteIssue env id = none ↔ res.StatusCode = 200)) := by
  refine ⟨fun h => ?_, fun h => ?_⟩
  · rw [UpdateIssue_of_response c env issue res h]
    by_cases h4 : res.StatusCode = 404
    · simp [h4]
    · by_cases hs : res.StatusCode = 200 <;> simp [h4, hs]
  · rw [DeleteIssue_of_response c env id res h]
    by_cases h4 : res.StatusCode = 404
    · simp [h4]
    · by_cases hs : res.StatusCode = 200 <;> simp [h4, hs]

theorem C10_nil_error_iff_200_witness :
    (sampleClient 200 sampleErrorsBody).UpdateIssue (sampleEnv 200 sampleErrorsBody) { Id := 5 }
        = none ∧
    (sampleClient 200 sampleBadBody).DeleteIssue (sampleEnv 200 sampleBadBody) 5 = none ∧
    (sampleClient 204 sampleBadBody).UpdateIssue (sampleEnv 204 sampleBadBody) { Id := 5 } ≠ none ∧
    (sampleClient 500 sampleNoErrorsBody).DeleteIssue (sampleEnv 500 sampleNoErrorsBody) 5
        ≠ none :=
  ⟨((C10_nil_error_iff_200 (sampleClient 200 sampleErrorsBody) (sampleEnv 200 sampleErrorsBody)
      { Id := 5 } 5 ⟨200, sampleErrorsBody⟩).1 ⟨_, _, rfl, rfl, rfl⟩).mpr rfl,
   ((C10_nil_error_iff_200 (sampleClient 200 sampleBadBody) (sampleEnv 200 sampleBadBody)
      { Id := 5 } 5 ⟨200, sampleBadBody⟩).2 ⟨_, rfl, rfl⟩).mpr rfl,
   fun hn => absurd (((C10_nil_error_iff_200 (sampleClient 204 sampleBadBody)
      (sampleEnv 204 sampleBadBody) { Id := 5 } 5 ⟨204, sampleBadBody⟩).1 ⟨_, _, rfl, rfl, rfl⟩).mp hn) (by decide),
   fun hn => absurd (((C10_nil_error_iff_200 (sampleClient 500 sampleNoErrorsBody)
      (sampleEnv 500 sampleNoErrorsBody) { Id := 5 } 5 ⟨500, sampleNoErrorsBody⟩).2
      ⟨_, rfl, rfl⟩).mp hn) (by decide)⟩

end Redmine
